import Mathlib

/-!
Shallow embedding of the urban-sound classifier front-end:
the wizard state container (`App`), the remote classification client
(`classifyAudioWithGemini` in the Gemini service module) and the
capture/visualization widget (`Visualizer`), together with proofs of the
behavioural properties stated about them.

Numbers carried inside classification results are only stored and passed
through by this code (never computed with), so they are modelled as `Int`.
Byte blobs are modelled as lists of bytes (`List Nat`) with a MIME type
string.  The base64 transfer encoding performed by the browser
(`FileReader.readAsDataURL`) is a platform facility that no property here
depends on, so requests carry the raw audio bytes.
-/

namespace UrbanSound

/-- `AppStep` enum from the types module: the linear wizard position. -/
inductive AppStep where
  | UPLOAD_MODEL
  | INPUT_AUDIO
  | ANALYZING
  | RESULTS
deriving DecidableEq, Repr

/-- A byte blob with a MIME type (`Blob` in the browser). -/
structure Blob where
  data : List Nat
  type : String
deriving DecidableEq, Repr

/-- `blob.size` is its byte length. -/
def Blob.size (b : Blob) : Nat := b.data.length

/-- A file as delivered by a file input: name, byte size and the text
content that `FileReader.readAsText` produces for it. -/
structure JsFile where
  name : String
  size : Nat
  content : String
deriving DecidableEq, Repr

/-- `ModelMetadata` from the types module. -/
structure ModelMetadata where
  name : String
  size : Nat
  content : String
deriving DecidableEq, Repr

/-- One entry of the `probabilities` array as it actually arrives from
`JSON.parse`: every field may be absent. -/
structure ProbEntry where
  name : Option String
  value : Option Int
deriving DecidableEq, Repr

/-- The value `JSON.parse(text) as ClassificationResult` actually yields:
a JSON object in which any of the declared `ClassificationResult` fields
may be missing, since the `as` cast performs no runtime validation. -/
structure ParsedClassificationResult where
  label : Option String
  accuracy : Option Int
  probabilities : Option (List ProbEntry)
  explanation : Option String
deriving DecidableEq, Repr

/-- `MediaStreamTrack.readyState`. -/
inductive TrackState where
  | live
  | ended
deriving DecidableEq, Repr

/-- A media track of a capture stream. -/
structure MediaStreamTrack where
  readyState : TrackState
deriving DecidableEq, Repr

/-- `track.stop()` moves the track to the `ended` state. -/
def MediaStreamTrack.stop (_t : MediaStreamTrack) : MediaStreamTrack :=
  { readyState := TrackState.ended }

/-- A microphone capture stream: its underlying tracks. -/
structure MediaStream where
  tracks : List MediaStreamTrack
deriving DecidableEq, Repr

/-- Whether every underlying track of the stream has reached the `ended`
state (the observable of the teardown property). -/
def MediaStream.allEnded (s : MediaStream) : Bool :=
  s.tracks.all (fun t => t.readyState = TrackState.ended)

/-- The UI theme state. -/
inductive Theme where
  | dark
  | light
deriving DecidableEq, Repr

/-! ## JavaScript string primitives used by the code -/

/-- JS `s.endsWith(search)`: the characters of `search` are a suffix of
the characters of `s`. -/
def jsEndsWith (s search : String) : Bool :=
  search.data.isSuffixOf s.data

/-- JS `s.substring(0, n)`: the first `n` characters of `s` (all of `s`
when it is shorter). -/
def jsSubstring (s : String) (n : Nat) : String :=
  String.mk (s.data.take n)

/-! ## Gemini service module -/

/-- The single error message thrown by `classifyAudioWithGemini` on any
failure path. -/
def serviceFailureMessage : String :=
  "Failed to classify audio. Please try again."

/-- The model identifier used for the request. -/
def geminiModelId : String := "gemini-2.5-flash"

/-- Text of the prompt template before the embedded model context. -/
def promptHead : String :=
  "\n    You are an expert Urban Sound Classifier system. \n    Analyze the provided audio clip. \n    \n    The user is interested in a classification model described by this notebook context (optional reference):\n    "

/-- Text of the prompt template after the embedded model context: the
truncation marker and the enumerated fixed category list. -/
def promptTail : String :=
  "... (truncated for brevity)\n\n    Classify the audio into one of these urban categories:\n    - Siren\n    - Dog Bark\n    - Drilling\n    - Car Horn\n    - Street Music\n    - Engine Idling\n    - Gun Shot\n    - Jackhammer\n    - Children Playing\n    - Air Conditioner\n    - Traffic\n    \n    Return a JSON object with:\n    1. \"label\": The most likely category.\n    2. \"accuracy\": A confidence score between 0 and 100.\n    3. \"probabilities\": An array of objects with \"name\" (category) and \"value\" (percentage 0-100) for the top 5 classes.\n    4. \"explanation\": A brief, technical explanation of the audio features (spectral centroid, rhythm, etc.) that led to this decision.\n  "

/-- The outbound prompt: the template embedding
`modelContext.substring(0, 2000)` between head and tail. -/
def geminiPrompt (modelContext : String) : String :=
  promptHead ++ jsSubstring modelContext 2000 ++ promptTail

/-- The single outbound request issued by `classifyAudioWithGemini`:
model id, inline audio data with its MIME type, and the prompt text. -/
structure GenRequest where
  model : String
  mimeType : String
  audioData : List Nat
  promptText : String
deriving DecidableEq, Repr

/-- Construction of the outbound request.  The inline-data MIME type is
`audioBlob.type || 'audio/wav'`: the empty string is falsy in JS, so an
empty blob type falls back to `audio/wav`. -/
def buildRequest (audioBlob : Blob) (modelContext : String) : GenRequest :=
  { model := geminiModelId
    mimeType := if audioBlob.type = "" then "audio/wav" else audioBlob.type
    audioData := audioBlob.data
    promptText := geminiPrompt modelContext }

/-- What the response body turns out to be once `response.text` is read
and `JSON.parse` is attempted on it:
`noText` — `response.text` is absent or empty (falsy, so the code throws
"No response from Gemini");
`invalidJson` — text present but `JSON.parse` throws;
`validJson p` — `JSON.parse` succeeds, yielding an object whose declared
fields may each be present or missing. -/
inductive ResponseBody where
  | noText
  | invalidJson
  | validJson (p : ParsedClassificationResult)
deriving DecidableEq, Repr

/-- Outcome of awaiting `ai.models.generateContent`:
`throws` — the call rejects (network failure);
`returns body` — the call resolves and the body is as described. -/
inductive RemoteOutcome where
  | throws
  | returns (body : ResponseBody)
deriving DecidableEq, Repr

/-- `classifyAudioWithGemini`, parameterised by the outcome of its single
remote call.  Returns the request it issued paired with its result: the
`try` block rethrows every internal failure as the one generic
`serviceFailureMessage`; a successfully parsed JSON body is returned by
the unchecked cast `JSON.parse(text) as ClassificationResult` with no
field validation. -/
def classifyAudioWithGemini (audioBlob : Blob) (modelContext : String)
    (outcome : RemoteOutcome) :
    GenRequest × Except String ParsedClassificationResult :=
  let request := buildRequest audioBlob modelContext
  match outcome with
  | RemoteOutcome.throws => (request, Except.error serviceFailureMessage)
  | RemoteOutcome.returns ResponseBody.noText =>
      (request, Except.error serviceFailureMessage)
  | RemoteOutcome.returns ResponseBody.invalidJson =>
      (request, Except.error serviceFailureMessage)
  | RemoteOutcome.returns (ResponseBody.validJson p) =>
      (request, Except.ok p)

/-! ## App state container -/

/-- Error message set when a non-`.ipynb` file is chosen at step 1. -/
def invalidModelFileMessage : String := "Please upload a valid .ipynb file."

/-- Error message set when microphone access is denied. -/
def micDeniedMessage : String := "Microphone access denied."

/-- Error message set when `classifyAudioWithGemini` throws. -/
def classificationFailedMessage : String :=
  "Classification failed. Please check your API key or internet connection."

/-- The `App` component's state: the `useState` hooks plus the mutable
`chunksRef` of recorded chunks. -/
structure AppState where
  currentStep : AppStep
  modelData : Option ModelMetadata
  audioFile : Option Blob
  isRecording : Bool
  recordingStream : Option MediaStream
  result : Option ParsedClassificationResult
  error : Option String
  theme : Theme
  chunks : List Blob
deriving DecidableEq, Repr

/-- `handleModelUpload`: given the (possibly absent) selected file, with
the `FileReader.readAsText` result available as the file's text content.
A non-`.ipynb` name only sets the error; otherwise the reader's `onload`
stores the metadata, clears the error and advances the wizard. -/
def handleModelUpload (s : AppState) (fileSel : Option JsFile) : AppState :=
  match fileSel with
  | none => s
  | some file =>
      if !(jsEndsWith file.name ".ipynb") then
        { s with error := some invalidModelFileMessage }
      else
        { s with
            modelData := some { name := file.name, size := file.size,
                                content := file.content }
            error := none
            currentStep := AppStep.INPUT_AUDIO }

/-- `handleAudioUpload`: a chosen audio file becomes the audio input and
clears the error. -/
def handleAudioUpload (s : AppState) (fileSel : Option Blob) : AppState :=
  match fileSel with
  | none => s
  | some file => { s with audioFile := some file, error := none }

/-- The successful branch of `startRecording` (after `getUserMedia`
resolves with `stream`): store the stream, mark recording, clear the
previous audio file and reset the chunk list. -/
def startRecordingSuccess (s : AppState) (stream : MediaStream) : AppState :=
  { s with
      recordingStream := some stream
      isRecording := true
      audioFile := none
      chunks := [] }

/-- The failing branch of `startRecording` (`getUserMedia` rejects). -/
def startRecordingFailure (s : AppState) : AppState :=
  { s with error := some micDeniedMessage }

/-- `mediaRecorder.ondataavailable`: a non-empty chunk is appended. -/
def onDataAvailable (s : AppState) (chunk : Blob) : AppState :=
  if chunk.size > 0 then { s with chunks := s.chunks ++ [chunk] } else s

/-- `mediaRecorder.onstop`: merge the recorded chunks into one blob of
type `audio/webm`, make it the audio input, stop every track of the
captured stream and drop the stream.  Returns the new state together
with the stream as mutated by `track.stop()` on each track. -/
def mediaRecorderOnStop (s : AppState) (stream : MediaStream) :
    AppState × MediaStream :=
  let blob : Blob := { data := (s.chunks.map Blob.data).flatten, type := "audio/webm" }
  let stoppedStream : MediaStream :=
    { tracks := stream.tracks.map MediaStreamTrack.stop }
  ({ s with audioFile := some blob, recordingStream := none }, stoppedStream)

/-- `stopRecording`: with a recorder present and `isRecording` set, stop
the recorder (which later fires `onstop`) and clear the flag. -/
def stopRecording (s : AppState) (recorderPresent : Bool) : AppState :=
  if recorderPresent && s.isRecording then { s with isRecording := false } else s

/-- `runClassification`, parameterised by the outcome of the remote call.
Returns the new state and the number of network calls performed: the
guard `if (!audioFile || !modelData) return` performs none; otherwise the
step moves to `ANALYZING`, and the awaited call either stores the result
and moves to `RESULTS` or sets the failure message and moves back to
`INPUT_AUDIO`. -/
def runClassification (s : AppState) (outcome : RemoteOutcome) :
    AppState × Nat :=
  match s.audioFile, s.modelData with
  | some audioFile, some modelData =>
      let s1 := { s with currentStep := AppStep.ANALYZING }
      match (classifyAudioWithGemini audioFile modelData.content outcome).2 with
      | Except.ok data =>
          ({ s1 with result := some data, currentStep := AppStep.RESULTS }, 1)
      | Except.error _ =>
          ({ s1 with error := some classificationFailedMessage,
                     currentStep := AppStep.INPUT_AUDIO }, 1)
  | _, _ => (s, 0)

/-- `reset`: clear the audio input and the result and return to the
audio-input step. -/
def reset (s : AppState) : AppState :=
  { s with audioFile := none, result := none,
           currentStep := AppStep.INPUT_AUDIO }

/-! ## Visualization widget -/

/-- `AudioContext.state`. -/
inductive AudioContextState where
  | running
  | closed
deriving DecidableEq, Repr

/-- The resources the `Visualizer` effect owns: the mounted flag, the
pending animation-frame callback (`requestRef`), the audio context and
the temporary object URL for a file source. -/
structure VisualizerState where
  mounted : Bool
  requestRef : Option Nat
  contextState : AudioContextState
  audioUrl : Option String
deriving DecidableEq, Repr

/-- The effect's cleanup function, run on widget teardown: clear the
mounted flag, cancel the pending animation frame, close the audio
context and revoke the object URL.  It is given the props the effect
closed over (`isRecording` and the capture stream) but touches neither:
the stream and its tracks pass through unchanged. -/
def visualizerCleanup (isRecording : Bool) (stream : Option MediaStream)
    (v : VisualizerState) : VisualizerState × Option MediaStream :=
  let _unused := isRecording
  ({ v with mounted := false, requestRef := none,
            contextState := AudioContextState.closed, audioUrl := none },
   stream)

/-! ## Concrete fixtures used by witnesses and counterexamples -/

/-- A sample parsed model file. -/
def sampleModel : ModelMetadata :=
  { name := "model.ipynb", size := 10, content := "cells" }

/-- A sample audio blob. -/
def sampleBlob : Blob := { data := [1, 2, 3], type := "audio/webm" }

/-- A fully populated parsed result. -/
def sampleParsed : ParsedClassificationResult :=
  { label := some "Siren", accuracy := some 91,
    probabilities := some [{ name := some "Siren", value := some 91 }],
    explanation := some "high spectral centroid" }

/-- The parsed value of the JSON body `\x7b\x7d`: every declared field
missing. -/
def emptyParsed : ParsedClassificationResult :=
  { label := none, accuracy := none, probabilities := none,
    explanation := none }

/-- A state at the audio-input step with model and audio present. -/
def sampleState : AppState :=
  { currentStep := AppStep.INPUT_AUDIO, modelData := some sampleModel,
    audioFile := some sampleBlob, isRecording := false,
    recordingStream := none, result := none, error := none,
    theme := Theme.dark, chunks := [] }

/-- A state with no audio input selected. -/
def noAudioState : AppState := { sampleState with audioFile := none }

/-- A state at the results step. -/
def resultsState : AppState :=
  { sampleState with currentStep := AppStep.RESULTS,
                     result := some sampleParsed }

/-- A model-file selection whose name is not `.ipynb`. -/
def badFile : JsFile := { name := "model.txt", size := 4, content := "t" }

/-- A model-file selection with a `.ipynb` name. -/
def goodFile : JsFile :=
  { name := "sound.ipynb", size := 2048, content := "cells json" }

/-- A one-track live microphone stream. -/
def liveStream : MediaStream :=
  { tracks := [{ readyState := TrackState.live }] }

/-- A visualizer holding every kind of resource. -/
def sampleVisualizer : VisualizerState :=
  { mounted := true, requestRef := some 7,
    contextState := AudioContextState.running, audioUrl := some "blob:u" }

/-! ## Claim theorems -/

/-- C4: a model-file upload whose name does not end in `.ipynb` sets the
invalid-file-type error and leaves every other part of the state — in
particular the wizard step and the model metadata — unchanged, so the
wizard never advances on such an upload. -/
theorem handleModelUpload_invalid_keeps_state (s : AppState) (file : JsFile)
    (h : jsEndsWith file.name ".ipynb" = false) :
    handleModelUpload s (some file)
        = { s with error := some invalidModelFileMessage } ∧
    (handleModelUpload s (some file)).currentStep = s.currentStep ∧
    (handleModelUpload s (some file)).modelData = s.modelData := by
  simp [handleModelUpload, h]

/-- Witness for C4 at a concrete `.txt` upload. -/
theorem handleModelUpload_invalid_keeps_state_witness :
    jsEndsWith badFile.name ".ipynb" = false ∧
    handleModelUpload sampleState (some badFile)
        = { sampleState with error := some invalidModelFileMessage } :=
  ⟨by decide,
   (handleModelUpload_invalid_keeps_state sampleState badFile (by decide)).1⟩

/-- C5: a model-file upload whose name ends in `.ipynb` stores model
metadata holding exactly the file's name, byte size and text content,
clears the error and advances the wizard to the audio-input step. -/
theorem handleModelUpload_valid_advances (s : AppState) (file : JsFile)
    (h : jsEndsWith file.name ".ipynb" = true) :
    handleModelUpload s (some file) =
      { s with
          modelData := some { name := file.name, size := file.size,
                              content := file.content }
          error := none
          currentStep := AppStep.INPUT_AUDIO } := by
  simp [handleModelUpload, h]

/-- Witness for C5 at a concrete `.ipynb` upload. -/
theorem handleModelUpload_valid_advances_witness :
    jsEndsWith goodFile.name ".ipynb" = true ∧
    handleModelUpload sampleState (some goodFile) =
      { sampleState with
          modelData := some { name := goodFile.name, size := goodFile.size,
                              content := goodFile.content }
          error := none
          currentStep := AppStep.INPUT_AUDIO } :=
  ⟨by decide, handleModelUpload_valid_advances sampleState goodFile (by decide)⟩

/-- C7: `reset` from the results step clears the audio input and the
classification result, returns to the audio-input step, and leaves the
loaded model metadata unchanged. -/
theorem reset_clears_audio_and_result (s : AppState)
    (_h : s.currentStep = AppStep.RESULTS) :
    (reset s).audioFile = none ∧ (reset s).result = none ∧
    (reset s).currentStep = AppStep.INPUT_AUDIO ∧
    (reset s).modelData = s.modelData :=
  ⟨rfl, rfl, rfl, rfl⟩

/-- Witness for C7 at a concrete results-step state. -/
theorem reset_clears_audio_and_result_witness :
    resultsState.currentStep = AppStep.RESULTS ∧
    ((reset resultsState).audioFile = none ∧
     (reset resultsState).result = none ∧
     (reset resultsState).currentStep = AppStep.INPUT_AUDIO ∧
     (reset resultsState).modelData = resultsState.modelData) :=
  ⟨rfl, reset_clears_audio_and_result resultsState rfl⟩

/-- C9: when the audio input or the model metadata is absent,
`runClassification` returns at the guard: no network call is made and
the state is returned unchanged. -/
theorem runClassification_guard_no_call (s : AppState)
    (outcome : RemoteOutcome)
    (h : s.audioFile = none ∨ s.modelData = none) :
    runClassification s outcome = (s, 0) := by
  rcases h with h | h
  · cases hm : s.modelData <;> simp [runClassification, h, hm]
  · cases ha : s.audioFile <;> simp [runClassification, h, ha]

/-- Witness for C9 at a concrete state with no audio input. -/
theorem runClassification_guard_no_call_witness :
    (noAudioState.audioFile = none ∨ noAudioState.modelData = none) ∧
    runClassification noAudioState RemoteOutcome.throws = (noAudioState, 0) :=
  ⟨Or.inl rfl,
   runClassification_guard_no_call noAudioState RemoteOutcome.throws
     (Or.inl rfl)⟩

/-- C1: with audio and model both present, a remote call that yields a
parsed result moves the state to the results step holding exactly that
result; a remote call that throws moves the state back to the
audio-input step with the generic failure message, leaving the selected
audio input (and the stored result) unchanged. -/
theorem runClassification_remote_flow (s : AppState) (a : Blob)
    (m : ModelMetadata) (outcome : RemoteOutcome)
    (ha : s.audioFile = some a) (hm : s.modelData = some m) :
    (∀ p, (classifyAudioWithGemini a m.content outcome).2 = Except.ok p →
        (runClassification s outcome).1.currentStep = AppStep.RESULTS ∧
        (runClassification s outcome).1.result = some p ∧
        (runClassification s outcome).1.audioFile = some a ∧
        (runClassification s outcome).1.modelData = some m) ∧
    (∀ e, (classifyAudioWithGemini a m.content outcome).2 = Except.error e →
        (runClassification s outcome).1.currentStep = AppStep.INPUT_AUDIO ∧
        (runClassification s outcome).1.error
          = some classificationFailedMessage ∧
        (runClassification s outcome).1.audioFile = some a ∧
        (runClassification s outcome).1.result = s.result) := by
  constructor
  · intro p hp
    simp [runClassification, ha, hm, hp]
  · intro e he
    simp [runClassification, ha, hm, he]

/-- Witness for C1 at a concrete state and a successful remote outcome. -/
theorem runClassification_remote_flow_witness :
    sampleState.audioFile = some sampleBlob ∧
    sampleState.modelData = some sampleModel ∧
    (classifyAudioWithGemini sampleBlob sampleModel.content
        (RemoteOutcome.returns (ResponseBody.validJson sampleParsed))).2
      = Except.ok sampleParsed ∧
    (runClassification sampleState
        (RemoteOutcome.returns (ResponseBody.validJson sampleParsed))).1.currentStep
      = AppStep.RESULTS :=
  ⟨rfl, rfl, rfl,
   ((runClassification_remote_flow sampleState sampleBlob sampleModel
       (RemoteOutcome.returns (ResponseBody.validJson sampleParsed))
       rfl rfl).1 sampleParsed rfl).1⟩

/-- C3 counterexample: a response body that is syntactically valid JSON
but misses every required field is returned by
`classifyAudioWithGemini` as a successful (partial) result, not as the
generic classification-failed error — so the missing-required-fields
cause does not collapse into the thrown-error outcome. -/
theorem classify_missing_fields_counterexample :
    (classifyAudioWithGemini sampleBlob "cells"
        (RemoteOutcome.returns (ResponseBody.validJson emptyParsed))).2
      = Except.ok emptyParsed ∧
    emptyParsed.label = none ∧ emptyParsed.accuracy = none ∧
    emptyParsed.probabilities = none ∧ emptyParsed.explanation = none :=
  ⟨rfl, rfl, rfl, rfl, rfl⟩

/-- C3 amended: a network failure, an absent response body and a
malformed response body each result in the same single generic
classification-failed error, indistinguishable by cause; only a
syntactically valid JSON body escapes this collapse (it is returned
unvalidated). -/
theorem classify_error_collapse (audioBlob : Blob) (modelContext : String)
    (outcome : RemoteOutcome)
    (h : outcome = RemoteOutcome.throws ∨
         outcome = RemoteOutcome.returns ResponseBody.noText ∨
         outcome = RemoteOutcome.returns ResponseBody.invalidJson) :
    (classifyAudioWithGemini audioBlob modelContext outcome).2
      = Except.error serviceFailureMessage := by
  rcases h with h | h | h <;> subst h <;> rfl

/-- Witness for the amended C3 at a concrete network failure. -/
theorem classify_error_collapse_witness :
    (RemoteOutcome.throws = RemoteOutcome.throws ∨
     RemoteOutcome.throws = RemoteOutcome.returns ResponseBody.noText ∨
     RemoteOutcome.throws = RemoteOutcome.returns ResponseBody.invalidJson) ∧
    (classifyAudioWithGemini sampleBlob "cells" RemoteOutcome.throws).2
      = Except.error serviceFailureMessage :=
  ⟨Or.inl rfl,
   classify_error_collapse sampleBlob "cells" RemoteOutcome.throws
     (Or.inl rfl)⟩

/-- C6: successfully starting a recording clears the previously selected
audio file (and marks recording); stopping a recording merges the
recorded chunk list into one blob of MIME type `audio/webm`, which
becomes the current audio input. -/
theorem recording_lifecycle (s : AppState) (stream : MediaStream) :
    (startRecordingSuccess s stream).audioFile = none ∧
    (startRecordingSuccess s stream).isRecording = true ∧
    (mediaRecorderOnStop s stream).1.audioFile
      = some { data := (s.chunks.map Blob.data).flatten,
               type := "audio/webm" } :=
  ⟨rfl, rfl, rfl⟩

/-- C8: the model context is embedded into the outbound prompt truncated
to its first 2000 characters, so any two context strings agreeing on
that prefix produce the same prompt text. -/
theorem geminiPrompt_truncation (ctx1 ctx2 : String)
    (h : jsSubstring ctx1 2000 = jsSubstring ctx2 2000) :
    geminiPrompt ctx1 = promptHead ++ jsSubstring ctx1 2000 ++ promptTail ∧
    geminiPrompt ctx1 = geminiPrompt ctx2 :=
  ⟨rfl, by simp [geminiPrompt, h]⟩

/-- A 2001-character context. -/
def longCtxA : String := String.mk (List.replicate 2001 'a')

/-- A different 2001-character context agreeing with `longCtxA` on the
first 2000 characters. -/
def longCtxB : String := String.mk (List.replicate 2000 'a' ++ ['b'])

/-- Witness for C8 at two concrete contexts that differ only beyond the
2000-character prefix. -/
theorem geminiPrompt_truncation_witness :
    jsSubstring longCtxA 2000 = jsSubstring longCtxB 2000 ∧
    geminiPrompt longCtxA = geminiPrompt longCtxB := by
  have h : jsSubstring longCtxA 2000 = jsSubstring longCtxB 2000 := by
    show String.mk ((List.replicate 2001 'a').take 2000)
       = String.mk ((List.replicate 2000 'a' ++ ['b']).take 2000)
    rw [List.take_replicate, List.take_left' (by rw [List.length_replicate])]
    norm_num
  exact ⟨h, (geminiPrompt_truncation longCtxA longCtxB h).2⟩

/-- C10: the request issued by `classifyAudioWithGemini` is
`buildRequest`, whose inline-data MIME type falls back to `audio/wav`
exactly when the blob's type is the empty string and otherwise carries
the blob's type unchanged. -/
theorem request_mimeType_fallback (audioBlob : Blob) (modelContext : String)
    (outcome : RemoteOutcome) :
    (classifyAudioWithGemini audioBlob modelContext outcome).1
      = buildRequest audioBlob modelContext ∧
    (audioBlob.type = "" →
      (buildRequest audioBlob modelContext).mimeType = "audio/wav") ∧
    (audioBlob.type ≠ "" →
      (buildRequest audioBlob modelContext).mimeType = audioBlob.type) := by
  refine ⟨?_, ?_, ?_⟩
  · cases outcome with
    | throws => rfl
    | returns body => cases body <;> rfl
  · intro h; simp [buildRequest, h]
  · intro h; simp [buildRequest, h]

/-- An audio blob whose MIME type is the empty string. -/
def emptyTypeBlob : Blob := { data := [0], type := "" }

/-- Witness for C10 at a blob with empty type and a blob with type
`audio/webm`. -/
theorem request_mimeType_fallback_witness :
    (buildRequest emptyTypeBlob "cells").mimeType = "audio/wav" ∧
    (buildRequest sampleBlob "cells").mimeType = "audio/webm" :=
  ⟨((request_mimeType_fallback emptyTypeBlob "cells"
       RemoteOutcome.throws).2).1 rfl,
   ((request_mimeType_fallback sampleBlob "cells"
       RemoteOutcome.throws).2).2 (by decide)⟩

/-- C2 counterexample: tearing down the visualizer while recording with
a live one-track stream leaves the stream exactly as it was — its track
is still `live`, not `ended`, so the teardown does not stop the
underlying media tracks. -/
theorem visualizerCleanup_leaves_tracks_live :
    (visualizerCleanup true (some liveStream) sampleVisualizer).2
      = some liveStream ∧
    liveStream.allEnded = false :=
  ⟨rfl, by decide⟩

/-- C2 amended: the visualizer teardown cancels its own resources but
passes the capture stream through with its tracks untouched; the
stream's tracks are stopped — every track entering the `ended` state —
by the media recorder's `onstop` handler instead. -/
theorem visualizer_teardown_tracks (isRecording : Bool)
    (stream : MediaStream) (v : VisualizerState) (s : AppState) :
    (visualizerCleanup isRecording (some stream) v).2 = some stream ∧
    (mediaRecorderOnStop s stream).2.allEnded = true := by
  refine ⟨rfl, ?_⟩
  simp [mediaRecorderOnStop, MediaStream.allEnded, MediaStreamTrack.stop,
        List.all_eq_true]

end UrbanSound
